import Mathlib

/-!
Verification development for the PocketLedger expense-tracker backend.

The definitions below are a shallow embedding of the TypeScript source:
`server/src/controllers/authController.ts` (OTP issue/verify, default-category
seeding, token minting), `server/src/controllers/expenseController.ts` and
`categoryController.ts` (owner-scoped CRUD, summary and period statistics),
`server/src/middleware/auth.ts` (the authenticate middleware), and the
mongoose models (`models/User.ts`, `models/Expense.ts`).

Conventions of the embedding:
* MongoDB documents are records in lists; `findOne` is `List.find?` over the
  relevant filter; saving a loaded document writes it back by `_id`.
* ObjectIds are natural numbers; every natural number is a valid ObjectId, so
  the `mongoose.Types.ObjectId.isValid` guards never fire and are dropped.
* JavaScript numbers are rationals, timestamps are integer milliseconds.
* BSON values carry their type tag: an aggregation `$match` (which bypasses
  mongoose schema casting) compares tagged values, so a stored string never
  equals an ObjectId query value; `Model.find`/`findOne` queries are cast by
  the schema and compare strings to strings.
* `Math.random()` draws are passed in as an explicit rational argument.
-/

namespace PocketLedger

/-- JavaScript falsiness of an optional string (models checks such as
`if (!name || !color)`): `undefined` and the empty string are falsy. -/
def jsFalsy : Option String → Bool
  | none => true
  | some s => s.isEmpty

/-- JavaScript `Math.round`: round half toward positive infinity. -/
def jsRound (q : ℚ) : ℤ := ⌊q + 1 / 2⌋

/-- JavaScript `Math.ceil`. -/
def jsCeil (q : ℚ) : ℤ := ⌈q⌉

/-- BSON values as far as query filters need them.  MongoDB equality is
type-sensitive: a stored string field never matches an ObjectId query value. -/
inductive BsonVal where
  | str : String → BsonVal
  | oid : String → BsonVal
deriving DecidableEq, Repr

/-- BSON equality used by aggregation `$match` stages. -/
def bsonEq : BsonVal → BsonVal → Bool
  | .str a, .str b => a == b
  | .oid a, .oid b => a == b
  | _, _ => false

/-! ### JavaScript `Date` model

Calendar arithmetic for `new Date(year, month, day, ...)` in a UTC model
(no time zones).  `daysFromCivil` is the standard civil-from-days algorithm;
the division `/` on `Int` is floor division, which is exact for the whole
range (the application only ever builds post-1970 dates). -/

/-- Days since the Unix epoch of a civil date; `m` is 1-based (1..12), `d` is
1-based but may be 0 or negative, rolling into the previous month as
JavaScript `Date` does. -/
def daysFromCivil (y : Int) (m : Nat) (d : Int) : Int :=
  let y2 : Int := if m ≤ 2 then y - 1 else y
  let era : Int := y2 / 400
  let yoe : Int := y2 - era * 400
  let mp : Nat := (m + 9) % 12
  let doy : Int := (153 * (mp : Int) + 2) / 5 + d - 1
  let doe : Int := yoe * 365 + yoe / 4 - yoe / 100 + doy
  era * 146097 + doe - 719468

/-- Milliseconds since the epoch of `new Date(year, month, day, h, mi, s, ms)`;
`month` is 0-based and values of 12 or more roll into later years, `day` 0
rolls back into the previous month, exactly as in JavaScript. -/
def jsMakeTime (year : Int) (month : Nat) (day : Int)
    (h mi s ms : Int) : Int :=
  daysFromCivil (year + (month / 12 : Nat)) (month % 12 + 1) day * 86400000
    + h * 3600000 + mi * 60000 + s * 1000 + ms

/-- A JavaScript `Date` as the civil components the source reads from it
(`getFullYear`, `getMonth`, `getTime`). -/
structure JSDate where
  year : Int
  month : Nat
  day : Nat
  hour : Nat
  minute : Nat
  second : Nat
  ms : Nat
deriving Repr, DecidableEq

/-- Model of `Date.prototype.getTime` for the civil components. -/
def JSDate.getTime (d : JSDate) : Int :=
  jsMakeTime d.year d.month (d.day : Int) (d.hour : Int) (d.minute : Int)
    (d.second : Int) (d.ms : Int)

/-! ### Data model (mongoose schemas) -/

/-- A persisted user record (`models/User.ts`): phone number, transient OTP
and its expiry, verified flag. -/
structure UserRec where
  id : Nat
  phoneNumber : String
  otp : Option String := none
  otpExpires : Option Int := none
  isVerified : Bool := false
  createdAt : Int := 0
deriving Repr, DecidableEq

/-- The string form (`_id.toString()`) of an ObjectId. -/
def uidStr (n : Nat) : String := toString n

/-- A persisted category (`models/Category.ts`): display attributes plus the
owning user's id string. -/
structure Category where
  id : Nat
  name : String
  color : String
  icon : Option String := none
  userId : String
  createdAt : Int := 0
  updatedAt : Int := 0
deriving Repr, DecidableEq

/-- A persisted expense (`models/Expense.ts`).  Note the schema declares
`userId` with type `String`, which is what makes the `getExpenseStats`
ObjectId `$match` relevant. -/
structure Expense where
  id : Nat
  amount : ℚ
  description : String
  categoryId : Nat
  date : Int
  receiptUrl : Option String := none
  userId : String
  createdAt : Int := 0
  updatedAt : Int := 0
deriving Repr, DecidableEq

/-- The persistent store: the three mongo collections plus a fresh-id
counter standing in for ObjectId generation. -/
structure Store where
  users : List UserRec := []
  categories : List Category := []
  expenses : List Expense := []
  nextId : Nat := 0
deriving Repr

/-- Error taxonomy of spec section 7; every non-2xx response site of the
source maps to exactly one constructor (400 validation to `invalidInput`,
the two OTP-specific 400s to `invalidCode`/`expired`, 401 to `unauthorized`,
404 to `notFound`, duplicate-name 400 to `conflict`, 500 to `internal`). -/
inductive ApiError where
  | invalidInput
  | notFound
  | invalidCode
  | expired
  | unauthorized
  | conflict
  | internal
deriving Repr, DecidableEq

/-! ### OTP generation, JWT, authenticate middleware -/

/-- The numeric value of `Math.floor(100000 + Math.random() * 900000)` where
`r` is the `Math.random()` draw. -/
def generateOTPVal (r : ℚ) : Int := ⌊(100000 : ℚ) + r * 900000⌋

/-- Embedding of `generateOTP` from `authController.ts`:
`Math.floor(100000 + Math.random() * 900000).toString()`. -/
def generateOTP (r : ℚ) : String := (generateOTPVal r).toNat.repr

/-- A signed JWT reduced to the claims it carries plus its signature; signing
with a secret is modelled by storing the secret as the signature, so a
signature verifies exactly when it was produced with the same secret. -/
structure JwtToken where
  userId : String
  exp : Int
  sig : String
deriving Repr, DecidableEq

/-- Embedding of `generateToken`: `jwt.sign({ userId }, JWT_SECRET, 30d expiry)`. -/
def generateToken (now : Int) (secret : String) (userId : String) : JwtToken :=
  { userId := userId, exp := now + 30 * 24 * 60 * 60 * 1000, sig := secret }

/-- The two `jwt.verify` failure modes the middleware distinguishes. -/
inductive JwtError where
  | malformed
  | expired
deriving Repr, DecidableEq

/-- Model of `jwt.verify`: signature check against the secret, then embedded-expiry
check; on success the payload resolves to the embedded user id. -/
def jwtVerify (t : JwtToken) (secret : String) (now : Int) :
    Except JwtError String :=
  if t.sig ≠ secret then .error .malformed
  else if t.exp ≤ now then .error .expired
  else .ok t.userId

/-- The identity `authenticate` attaches to the request on success. -/
structure AuthedUser where
  userId : String
  phoneNumber : String
deriving Repr, DecidableEq

/-- The `authenticate` middleware (`middleware/auth.ts`).  The Authorization
header is modelled as an optional already-parsed token (`none` covers a
missing header or one without the Bearer prefix); after signature and expiry
resolve, the referenced user is re-fetched from the current store and must
exist and be verified. -/
def authenticate (s : Store) (secret : Option String) (now : Int)
    (header : Option JwtToken) : Except ApiError AuthedUser :=
  match header with
  | none => .error .unauthorized
  | some tok =>
    match secret with
    | none => .error .internal
    | some sec =>
      match jwtVerify tok sec now with
      | .error _ => .error .unauthorized
      | .ok uid =>
        match s.users.find? (fun u => uidStr u.id == uid) with
        | none => .error .unauthorized
        | some u =>
          if u.isVerified then
            .ok { userId := uidStr u.id, phoneNumber := u.phoneNumber }
          else .error .unauthorized

/-! ### sendOTP / verifyOTP / default-category seeding -/

/-- The phone format `/^\+[1-9]\d\x7b1,14\x7d$/`: a plus sign, a nonzero
digit, then one to fourteen further digits. -/
def isValidPhone (p : String) : Bool :=
  match p.data with
  | '+' :: c :: rest =>
    ('1' ≤ c && c ≤ '9') && (decide (1 ≤ rest.length))
      && (decide (rest.length ≤ 14)) && rest.all Char.isDigit
  | _ => false

/-- Result of the `sendOTP` controller as far as the claims observe it (the
success payload only masks the phone number). -/
inductive SendResult where
  | invalidInput
  | ok
deriving Repr, DecidableEq

/-- Embedding of `sendOTP`: validate the phone, generate an OTP with a 10-minute expiry,
find-or-create the user for that phone overwriting any previous code, and
persist.  `r` is the `Math.random()` draw, `now` is `Date.now()`.  Delivery
(Twilio or the development console) does not touch the store. -/
def sendOTP (s : Store) (now : Int) (r : ℚ) (phoneNumber : Option String) :
    SendResult × Store :=
  match phoneNumber with
  | none => (.invalidInput, s)
  | some p =>
    if p.isEmpty then (.invalidInput, s)
    else if ¬ isValidPhone p then (.invalidInput, s)
    else
      let otp := generateOTP r
      let otpExpires := now + 10 * 60 * 1000
      match s.users.find? (fun u => u.phoneNumber == p) with
      | none =>
        let u : UserRec :=
          { id := s.nextId, phoneNumber := p, otp := some otp,
            otpExpires := some otpExpires, isVerified := false,
            createdAt := now }
        (.ok, { s with users := s.users ++ [u], nextId := s.nextId + 1 })
      | some u =>
        let u2 := { u with otp := some otp, otpExpires := some otpExpires }
        let users2 := s.users.map (fun v => if v.id == u.id then u2 else v)
        (.ok, { s with users := users2 })

/-- The six starter categories of `createDefaultCategories`. -/
def defaultCategoryTriples : List (String × String × String) :=
  [("Food", "#10B981", "🍽️"),
   ("Travel", "#3B82F6", "✈️"),
   ("Stationery", "#F59E0B", "📝"),
   ("Fast Food", "#EF4444", "🍕"),
   ("Shopping", "#8B5CF6", "🛍️"),
   ("Entertainment", "#EC4899", "🎬")]

/-- The category documents `Category.insertMany` creates for `uid`, with
fresh ids starting at `startId`. -/
def seededCategories (uid : String) (startId : Nat) (now : Int) :
    List Category :=
  defaultCategoryTriples.enum.map (fun p =>
    { id := startId + p.fst, name := p.snd.fst, color := p.snd.snd.fst,
      icon := some p.snd.snd.snd, userId := uid,
      createdAt := now, updatedAt := now })

/-- Embedding of `createDefaultCategories`: insert the six starter categories for `uid`.
The whole body is wrapped in try/catch and an insert failure (modelled by
`ok := false`) is logged and swallowed, leaving the store unchanged. -/
def createDefaultCategories (ok : Bool) (uid : String) (now : Int)
    (s : Store) : Store :=
  if ok then
    { s with categories := s.categories ++ seededCategories uid s.nextId now,
             nextId := s.nextId + 6 }
  else s

/-- The success payload of `verifyOTP`. -/
structure VerifyPayload where
  token : JwtToken
  userId : String
  phoneNumber : String
  isVerified : Bool
deriving Repr, DecidableEq

/-- Embedding of `verifyOTP`: look up the user by phone, compare the stored code to the
submitted one by strict string equality, then check the stored expiry
(`missing or earlier than now` fails); on success clear code and expiry, set
the verified flag, seed default categories when the user was not verified
before, and mint a token.  `seedOk` models whether the seeding insert
succeeds (its failure is swallowed inside `createDefaultCategories`). -/
def verifyOTP (s : Store) (now : Int) (secret : String) (seedOk : Bool)
    (phoneNumber otp : Option String) :
    Except ApiError VerifyPayload × Store :=
  match phoneNumber, otp with
  | some p, some c =>
    if p.isEmpty || c.isEmpty then (.error .invalidInput, s)
    else
      match s.users.find? (fun u => u.phoneNumber == p) with
      | none => (.error .notFound, s)
      | some u =>
        if u.otp ≠ some c then (.error .invalidCode, s)
        else
          match u.otpExpires with
          | none => (.error .expired, s)
          | some t =>
            if t < now then (.error .expired, s)
            else
              let isNewUser := ¬ u.isVerified
              let u2 :=
                { u with isVerified := true, otp := none, otpExpires := none }
              let users2 :=
                s.users.map (fun v => if v.id == u.id then u2 else v)
              let s2 := { s with users := users2 }
              let s3 :=
                if isNewUser then
                  createDefaultCategories seedOk (uidStr u.id) now s2
                else s2
              (.ok { token := generateToken now secret (uidStr u.id),
                     userId := uidStr u.id, phoneNumber := u.phoneNumber,
                     isVerified := true }, s3)
  | _, _ => (.error .invalidInput, s)

/-! ### Category CRUD (`categoryController.ts`) -/

/-- The client-facing shape of a category. -/
structure CategoryOut where
  id : String
  name : String
  color : String
  icon : Option String
deriving Repr, DecidableEq

/-- The response transform applied to a category document. -/
def Category.toOut (c : Category) : CategoryOut :=
  { id := toString c.id, name := c.name, color := c.color, icon := c.icon }

/-- Embedding of `getCategoryById`: owner-scoped `findOne` on both `_id` and `userId`. -/
def getCategoryById (s : Store) (userId : Option String) (id : Nat) :
    Except ApiError CategoryOut :=
  match userId with
  | none => .error .unauthorized
  | some uid =>
    match s.categories.find? (fun c => c.id == id && c.userId == uid) with
    | none => .error .notFound
    | some c => .ok c.toOut

/-- Embedding of `updateCategory`: after the auth and id checks, `name` and `color` are
both required; the lookup is owner-scoped, a same-name sibling of the same
owner is rejected, and only then is the category mutated in place. -/
def updateCategory (s : Store) (now : Int) (userId : Option String) (id : Nat)
    (name color icon : Option String) :
    Except ApiError CategoryOut × Store :=
  match userId with
  | none => (.error .unauthorized, s)
  | some uid =>
    match name, color with
    | some nm, some co =>
      if nm.isEmpty || co.isEmpty then (.error .invalidInput, s)
      else
        match s.categories.find? (fun c => c.id == id && c.userId == uid) with
        | none => (.error .notFound, s)
        | some c =>
          if s.categories.any (fun c2 =>
              c2.name == nm.trim && c2.userId == uid && c2.id != id) then
            (.error .conflict, s)
          else
            let icon2 := match icon with | some i => some i | none => c.icon
            let c2 : Category :=
              { c with name := nm.trim, color := co, icon := icon2,
                       updatedAt := now }
            let cats2 :=
              s.categories.map (fun v => if v.id == c.id then c2 else v)
            (.ok c2.toOut, { s with categories := cats2 })
    | _, _ => (.error .invalidInput, s)

/-- Embedding of `deleteCategory`: owner-scoped `findOne`, then `findByIdAndDelete` (ids
are unique, so deletion by id removes exactly the found document; expenses
referencing the category are left dangling — the source leaves this as a
TODO). -/
def deleteCategory (s : Store) (userId : Option String) (id : Nat) :
    Except ApiError Unit × Store :=
  match userId with
  | none => (.error .unauthorized, s)
  | some uid =>
    match s.categories.find? (fun c => c.id == id && c.userId == uid) with
    | none => (.error .notFound, s)
    | some _ =>
      (.ok (), { s with categories := s.categories.filter (fun c => c.id != id) })

/-! ### Expense CRUD (`expenseController.ts`) -/

/-- Model of `populate('categoryId', ...)`: resolve a category reference. -/
def lookupCategory (s : Store) (cid : Nat) : Option Category :=
  s.categories.find? (fun c => c.id == cid)

/-- The client-facing shape of an expense with its populated category. -/
structure ExpenseOut where
  id : String
  title : String
  amount : ℚ
  categoryId : String
  categoryName : String
  categoryColor : String
  date : Int
  receiptUrl : Option String
  userId : String
deriving Repr, DecidableEq

/-- The response transform for an expense with populated category `c`. -/
def Expense.toOut (e : Expense) (c : Category) : ExpenseOut :=
  { id := toString e.id, title := e.description, amount := e.amount,
    categoryId := toString c.id, categoryName := c.name,
    categoryColor := c.color, date := e.date, receiptUrl := e.receiptUrl,
    userId := e.userId }

/-- Embedding of `getExpenseById`: owner-scoped `findOne` with populated category; a
dangling category reference surfaces as a 500 after the fetch. -/
def getExpenseById (s : Store) (userId : Option String) (id : Nat) :
    Except ApiError ExpenseOut :=
  match userId with
  | none => .error .unauthorized
  | some uid =>
    match s.expenses.find? (fun e => e.id == id && e.userId == uid) with
    | none => .error .notFound
    | some e =>
      match lookupCategory s e.categoryId with
      | none => .error .internal
      | some c => .ok (e.toOut c)

/-- Embedding of `updateExpense`: owner-scoped `findOne` first, then per-field validation
and mutation.  `amount` is double-optional: the outer layer is presence in
the request body, the inner layer is whether `parseFloat` produced a number
(`none` = NaN).  A provided `categoryId` must resolve owner-scoped.  The
receipt-file unlink is a best-effort filesystem side effect outside the
store.  The document is saved before the response-side populate, so a
dangling category yields a 500 *after* the store was updated. -/
def updateExpense (s : Store) (now : Int) (userId : Option String) (id : Nat)
    (amount : Option (Option ℚ)) (description : Option String)
    (categoryId : Option Nat) (date : Option Int)
    (receipt : Option String) : Except ApiError ExpenseOut × Store :=
  match userId with
  | none => (.error .unauthorized, s)
  | some uid =>
    match s.expenses.find? (fun e => e.id == id && e.userId == uid) with
    | none => (.error .notFound, s)
    | some e =>
      let upd : Except ApiError Expense := do
        let e1 ← match amount with
          | none => pure e
          | some none => throw ApiError.invalidInput
          | some (some a) =>
            if a ≤ 0 then throw ApiError.invalidInput
            else pure { e with amount := a }
        let e2 ← match categoryId with
          | none => pure e1
          | some cid =>
            match s.categories.find? (fun c => c.id == cid && c.userId == uid) with
            | none => throw ApiError.notFound
            | some _ => pure { e1 with categoryId := cid }
        let e3 := match description with
          | none => e2
          | some d => { e2 with description := d.trim }
        let e4 := match date with
          | none => e3
          | some d => { e3 with date := d }
        let e5 := match receipt with
          | none => e4
          | some r => { e4 with receiptUrl := some r }
        pure { e5 with updatedAt := now }
      match upd with
      | .error err => (.error err, s)
      | .ok e2 =>
        let exps2 := s.expenses.map (fun v => if v.id == e.id then e2 else v)
        let s2 := { s with expenses := exps2 }
        match lookupCategory s2 e2.categoryId with
        | none => (.error .internal, s2)
        | some c => (.ok (e2.toOut c), s2)

/-- Embedding of `deleteExpense`: owner-scoped `findOne`, best-effort receipt-file removal
(outside the store), then `findByIdAndDelete`. -/
def deleteExpense (s : Store) (userId : Option String) (id : Nat) :
    Except ApiError Unit × Store :=
  match userId with
  | none => (.error .unauthorized, s)
  | some uid =>
    match s.expenses.find? (fun e => e.id == id && e.userId == uid) with
    | none => (.error .notFound, s)
    | some _ =>
      (.ok (), { s with expenses := s.expenses.filter (fun e => e.id != id) })

/-! ### Summary (`getExpenseSummary`) and period statistics
(`getExpenseStats`) -/

/-- Model of `$group` with `$sum: amount` over a list of matched expenses (an empty
aggregation result reads back as total 0). -/
def sumAmounts (es : List Expense) : ℚ := (es.map (fun e => e.amount)).sum

/-- The comparator realising `.sort(date: -1, createdAt: -1)`: `a` sorts no
later than `b` when `a` has the later date, or equal dates and `a` was
created no earlier. -/
def recentLe (a b : Expense) : Bool :=
  decide (b.date < a.date)
    || (b.date == a.date && decide (b.createdAt ≤ a.createdAt))

/-- One row of the monthly category breakdown. -/
structure BreakdownItem where
  categoryId : Nat
  categoryName : String
  categoryColor : String
  totalAmount : ℚ
  transactionCount : Nat
  percentage : Int
deriving Repr, DecidableEq

/-- One row of the recent-transactions list. -/
structure RecentItem where
  id : String
  title : String
  amount : ℚ
  categoryId : Nat
  categoryName : String
  categoryColor : String
  date : Int
  userId : String
  createdAt : Int
deriving Repr, DecidableEq

/-- The summary payload. -/
structure Summary where
  totalExpenses : ℚ
  monthlyExpenses : ℚ
  categoryBreakdown : List BreakdownItem
  recentTransactions : List RecentItem
deriving Repr, DecidableEq

/-- The category-breakdown aggregation: `$match` on owner (string equality —
this pipeline passes the raw string) and window, `$lookup`/`$unwind` against
the categories collection (dropping expenses whose reference does not
resolve), `$group` by category id summing amounts and counting, `$sort` by
total descending.  Percentages are filled in by the caller. -/
def breakdownFor (s : Store) (uid : String) (startT endT : Int) :
    List BreakdownItem :=
  let inWindow := s.expenses.filter (fun e =>
    bsonEq (.str e.userId) (.str uid) && decide (startT ≤ e.date)
      && decide (e.date ≤ endT))
  let resolvable :=
    inWindow.filter (fun e => (lookupCategory s e.categoryId).isSome)
  let keys := (resolvable.map (fun e => e.categoryId)).eraseDups
  let items := keys.filterMap (fun k =>
    (lookupCategory s k).map (fun c =>
      let grp := resolvable.filter (fun e => e.categoryId == k)
      ({ categoryId := k, categoryName := c.name, categoryColor := c.color,
         totalAmount := sumAmounts grp, transactionCount := grp.length,
         percentage := 0 } : BreakdownItem)))
  items.mergeSort (fun a b => decide (b.totalAmount ≤ a.totalAmount))

/-- Embedding of `getExpenseSummary`: all-time total, calendar-month window total,
category breakdown with rounded percentages (0 when the window total is not
positive, so division by zero never occurs), and the five most recent by
(date desc, createdAt desc) with populated category display attributes,
dropping any whose category does not resolve. -/
def getExpenseSummary (s : Store) (userId : Option String) (now : JSDate) :
    Except ApiError Summary :=
  match userId with
  | none => .error .unauthorized
  | some uid =>
    let startOfMonth := jsMakeTime now.year now.month 1 0 0 0 0
    let endOfMonth := jsMakeTime now.year (now.month + 1) 0 23 59 59 999
    let total :=
      sumAmounts (s.expenses.filter (fun e => bsonEq (.str e.userId) (.str uid)))
    let monthly := sumAmounts (s.expenses.filter (fun e =>
      bsonEq (.str e.userId) (.str uid) && decide (startOfMonth ≤ e.date)
        && decide (e.date ≤ endOfMonth)))
    let breakdown := (breakdownFor s uid startOfMonth endOfMonth).map
      (fun it => { it with percentage :=
        if 0 < monthly then jsRound (it.totalAmount / monthly * 100) else 0 })
    let recent :=
      (((s.expenses.filter (fun e => e.userId == uid)).mergeSort
          recentLe).take 5).filterMap
        (fun e => (lookupCategory s e.categoryId).map (fun c =>
          ({ id := toString e.id, title := e.description, amount := e.amount,
             categoryId := c.id, categoryName := c.name,
             categoryColor := c.color, date := e.date, userId := e.userId,
             createdAt := e.createdAt } : RecentItem)))
    .ok { totalExpenses := total, monthlyExpenses := monthly,
          categoryBreakdown := breakdown, recentTransactions := recent }

/-- The statistics payload (the per-category and per-day series are omitted:
they run the same `$match` stage and are not inspected by any claim). -/
structure StatsPayload where
  totalAmount : ℚ
  totalCount : Nat
  averagePerDay : ℚ
  startDate : Int
  endDate : Int
deriving Repr, DecidableEq

/-- Embedding of `getExpenseStats`: period window (`week` = trailing seven days, `year` =
January 1, anything else = calendar month start), then an aggregation whose
`$match` filters on `userId: new mongoose.Types.ObjectId(userId)`.
Aggregation pipelines bypass schema casting, so this compares the stored
*string* `userId` against an ObjectId value. -/
def getExpenseStats (s : Store) (userId : Option String) (period : String)
    (now : JSDate) : Except ApiError StatsPayload :=
  match userId with
  | none => .error .unauthorized
  | some uid =>
    let nowT := now.getTime
    let startDate : Int :=
      if period == "week" then nowT - 7 * 24 * 60 * 60 * 1000
      else if period == "year" then jsMakeTime now.year 0 1 0 0 0 0
      else jsMakeTime now.year now.month 1 0 0 0 0
    let matched := s.expenses.filter (fun e =>
      bsonEq (.str e.userId) (.oid uid) && decide (startDate ≤ e.date)
        && decide (e.date ≤ nowT))
    let totalAmount := sumAmounts matched
    let daysDiff := jsCeil (((nowT - startDate : Int) : ℚ) / 86400000)
    let avg := if 0 < daysDiff then totalAmount / (daysDiff : ℚ) else 0
    .ok { totalAmount := totalAmount, totalCount := matched.length,
          averagePerDay := avg, startDate := startDate, endDate := nowT }

/-! ## Helper lemmas

Facts about `Nat.toDigits` (the decimal rendering behind `Nat.repr`, used by
`generateOTP`) and small list utilities shared by the claim theorems. -/

lemma toDigitsCore_append (b : Nat) : ∀ (f n : Nat) (ds : List Char),
    Nat.toDigitsCore b f n ds = Nat.toDigitsCore b f n [] ++ ds := by
  intro f
  induction f with
  | zero => intro n ds; simp [Nat.toDigitsCore]
  | succ f ih =>
    intro n ds
    simp only [Nat.toDigitsCore]
    by_cases h : n / b = 0
    · simp [h]
    · simp only [h, if_false]
      rw [ih (n / b) (Nat.digitChar (n % b) :: ds),
        ih (n / b) [Nat.digitChar (n % b)]]
      simp

lemma toDigitsCore_fuel (b : Nat) (hb : 2 ≤ b) : ∀ (n f f2 : Nat),
    n < f → n < f2 →
    Nat.toDigitsCore b f n [] = Nat.toDigitsCore b f2 n [] := by
  intro n
  induction n using Nat.strong_induction_on with
  | _ n ih =>
    intro f f2 hf hf2
    cases f with
    | zero => omega
    | succ f =>
      cases f2 with
      | zero => omega
      | succ f2 =>
        simp only [Nat.toDigitsCore]
        by_cases h : n / b = 0
        · simp [h]
        · simp only [h, if_false]
          rw [toDigitsCore_append b f, toDigitsCore_append b f2]
          have hn : 0 < n := by
            rcases Nat.eq_zero_or_pos n with h0 | h0
            · exact absurd (by simp [h0] : n / b = 0) h
            · exact h0
          have hdiv : n / b < n := Nat.div_lt_self hn hb
          rw [ih (n / b) hdiv f f2 (by omega) (by omega)]

lemma toDigits_step (n : Nat) (h : 10 ≤ n) :
    Nat.toDigits 10 n
      = Nat.toDigits 10 (n / 10) ++ [Nat.digitChar (n % 10)] := by
  have hdiv : n / 10 ≠ 0 := by
    have := Nat.div_pos h (by norm_num : 0 < 10)
    omega
  show Nat.toDigitsCore 10 (n + 1) n [] = _
  simp only [Nat.toDigitsCore, hdiv, if_false]
  rw [toDigitsCore_append 10 n (n / 10)]
  unfold Nat.toDigits
  congr 1
  exact toDigitsCore_fuel 10 (by norm_num) (n / 10) n (n / 10 + 1)
    (by have := Nat.div_lt_self (by omega : 0 < n) (by norm_num : 2 ≤ 10)
        omega)
    (by omega)

lemma toDigits_small (n : Nat) (h : n < 10) :
    Nat.toDigits 10 n = [Nat.digitChar n] := by
  unfold Nat.toDigits
  simp [Nat.toDigitsCore, Nat.div_eq_of_lt h, Nat.mod_eq_of_lt h]

lemma toDigits_length (k : Nat) : ∀ n, 10 ^ k ≤ n → n < 10 ^ (k + 1) →
    (Nat.toDigits 10 n).length = k + 1 := by
  induction k with
  | zero =>
    intro n h1 h2
    rw [toDigits_small n (by simpa using h2)]
    rfl
  | succ k ih =>
    intro n h1 h2
    have h10 : 10 ≤ n := by
      refine le_trans ?_ h1
      calc (10 : ℕ) = 10 ^ 1 := by norm_num
        _ ≤ 10 ^ (k + 1) := Nat.pow_le_pow_right (by norm_num) (by omega)
    rw [toDigits_step n h10, List.length_append]
    have e1 : 10 ^ k ≤ n / 10 := by
      rw [Nat.le_div_iff_mul_le (by norm_num)]
      calc 10 ^ k * 10 = 10 ^ (k + 1) := by ring
        _ ≤ n := h1
    have e2 : n / 10 < 10 ^ (k + 1) := by
      rw [Nat.div_lt_iff_lt_mul (by norm_num)]
      calc n < 10 ^ (k + 2) := h2
        _ = 10 ^ (k + 1) * 10 := by ring
    rw [ih (n / 10) e1 e2]
    simp

lemma toDigits_ne_nil (n : Nat) : Nat.toDigits 10 n ≠ [] := by
  by_cases h : n < 10
  · rw [toDigits_small n h]; simp
  · rw [toDigits_step n (le_of_not_lt h)]; simp

lemma digitChar_ne_zero (n : Nat) (h1 : 1 ≤ n) (h2 : n ≤ 9) :
    Nat.digitChar n ≠ '0' := by
  interval_cases n <;> decide

lemma toDigits_head_ne_zero : ∀ n, 0 < n →
    (Nat.toDigits 10 n).head? ≠ some '0' := by
  intro n
  induction n using Nat.strong_induction_on with
  | _ n ih =>
    intro hn
    by_cases h : n < 10
    · rw [toDigits_small n h]
      simp only [List.head?_cons, ne_eq, Option.some.injEq]
      exact digitChar_ne_zero n hn (by omega)
    · rw [toDigits_step n (le_of_not_lt h)]
      have hpos : 0 < n / 10 := Nat.div_pos (le_of_not_lt h) (by norm_num)
      have hlt : n / 10 < n := Nat.div_lt_self (by omega) (by norm_num)
      cases hl : Nat.toDigits 10 (n / 10) with
      | nil => exact absurd hl (toDigits_ne_nil _)
      | cons a l =>
        have := ih (n / 10) hlt hpos
        rw [hl] at this
        simpa using this

lemma repr_data (n : Nat) : (Nat.repr n).data = Nat.toDigits 10 n := rfl

lemma repr_length_toDigits (n : Nat) :
    (Nat.repr n).length = (Nat.toDigits 10 n).length := rfl

lemma generateOTPVal_range (r : ℚ) (h0 : 0 ≤ r) (h1 : r < 1) :
    100000 ≤ generateOTPVal r ∧ generateOTPVal r ≤ 999999 := by
  unfold generateOTPVal
  constructor
  · exact Int.le_floor.mpr (by push_cast; nlinarith)
  · have hlt : ⌊(100000 : ℚ) + r * 900000⌋ < 1000000 :=
      Int.floor_lt.mpr (by push_cast; nlinarith)
    omega

lemma digitChar_isDigit (n : Nat) (h : n < 10) :
    (Nat.digitChar n).isDigit = true := by
  interval_cases n <;> decide

lemma toDigits_all_digits : ∀ n, (Nat.toDigits 10 n).all Char.isDigit = true := by
  intro n
  induction n using Nat.strong_induction_on with
  | _ n ih =>
    by_cases h : n < 10
    · rw [toDigits_small n h]
      simp [digitChar_isDigit n h]
    · rw [toDigits_step n (le_of_not_lt h), List.all_append]
      have hlt : n / 10 < n := Nat.div_lt_self (by omega) (by norm_num)
      simp [ih (n / 10) hlt,
        digitChar_isDigit (n % 10) (Nat.mod_lt n (by norm_num))]

lemma string_length_data (s : String) : s.length = s.data.length := rfl

lemma generateOTP_ne_empty (r : ℚ) : (generateOTP r).isEmpty = false := by
  rw [Bool.eq_false_iff]
  intro h
  have h2 := (String.isEmpty_iff _).mp h
  have h3 := congrArg String.data h2
  unfold generateOTP at h3
  rw [repr_data] at h3
  exact toDigits_ne_nil _ h3

lemma isValidPhone_ne_empty (p : String) (h : isValidPhone p = true) :
    p.isEmpty = false := by
  cases he : p.isEmpty
  · rfl
  · exfalso
    have h2 := (String.isEmpty_iff _).mp he
    subst h2
    exact absurd h (by decide)

lemma find?_congr_mem {α : Type} {p q : α → Bool} :
    ∀ {l : List α}, (∀ x ∈ l, p x = q x) → l.find? p = l.find? q := by
  intro l
  induction l with
  | nil => intro _; rfl
  | cons a l ih =>
    intro h
    have ha := h a (by simp)
    simp only [List.find?]
    rw [ha]
    cases q a
    · exact ih (fun x hx => h x (by simp [hx]))
    · rfl

/-! ## Claim theorems -/

/-- C9, counterexample to the claim as stated: the generator never produces
a code beginning with the digit 0, because the generated value
`Math.floor(100000 + r * 900000)` is at least 100000 for every random draw
`r` in `[0, 1)` — so no random input yields a leading zero. -/
theorem c9_no_leading_zero :
    ¬ ∃ r : ℚ, 0 ≤ r ∧ r < 1 ∧ (generateOTP r).data.head? = some '0' := by
  rintro ⟨r, h0, h1, hc⟩
  obtain ⟨ha, _⟩ := generateOTPVal_range r h0 h1
  have hn : 0 < (generateOTPVal r).toNat := by omega
  have hne : (generateOTP r).data.head? ≠ some '0' := by
    unfold generateOTP
    rw [repr_data]
    exact toDigits_head_ne_zero _ hn
  exact hne hc

/-- C9 (amended): every code produced by the OTP generator for a random
draw `r` in `[0, 1)` is a fixed-width 6-character numeric string whose
numeric value lies in 100000..999999; the first character is never the
digit 0 (the draw is uniform over that 900000-code range, not over all
6-digit strings with leading zeros). -/
theorem c9_amended_format (r : ℚ) (h0 : 0 ≤ r) (h1 : r < 1) :
    (generateOTP r).length = 6 ∧
    (generateOTP r).data.all Char.isDigit = true ∧
    (generateOTP r).data.head? ≠ some '0' ∧
    100000 ≤ generateOTPVal r ∧ generateOTPVal r ≤ 999999 := by
  obtain ⟨ha, hb⟩ := generateOTPVal_range r h0 h1
  have ha2 : 100000 ≤ (generateOTPVal r).toNat := by omega
  have hb2 : (generateOTPVal r).toNat < 1000000 := by omega
  refine ⟨?_, ?_, ?_, ha, hb⟩
  · unfold generateOTP
    rw [repr_length_toDigits]
    refine toDigits_length 5 (generateOTPVal r).toNat ?_ ?_
    · calc (10 : ℕ) ^ 5 = 100000 := by norm_num
        _ ≤ _ := ha2
    · calc (generateOTPVal r).toNat < 1000000 := hb2
        _ = 10 ^ (5 + 1) := by norm_num
  · unfold generateOTP
    rw [repr_data]
    exact toDigits_all_digits _
  · unfold generateOTP
    rw [repr_data]
    exact toDigits_head_ne_zero _ (by omega)

/-- C9 witness: the amended statement instantiated at the draw `r = 0`. -/
theorem c9_amended_format_witness :
    (generateOTP 0).length = 6 ∧
    (generateOTP 0).data.all Char.isDigit = true ∧
    (generateOTP 0).data.head? ≠ some '0' ∧
    100000 ≤ generateOTPVal 0 ∧ generateOTPVal 0 ≤ 999999 :=
  c9_amended_format 0 (by norm_num) (by norm_num)

/-- A stored user whose OTP is issued and expires at time 0, for the C2
counterexample and witness. -/
def c2User : UserRec :=
  { id := 0, phoneNumber := "+15550001111", otp := some "123456",
    otpExpires := some 0, isVerified := false, createdAt := 0 }

/-- A one-user store for the C2 counterexample and witness. -/
def c2Store : Store :=
  { users := [c2User], categories := [], expenses := [], nextId := 1 }

/-- C2, counterexample to the claim as stated, in two parts.  At time
600000 — at/after the stored expiry 0 — submitting a *non-matching* code
fails with InvalidCode, not Expired, because the code-equality check runs
before the expiry check; and exactly at the expiry instant (clock = stored
expiry = 0) a matching code still succeeds, because only a *strictly*
earlier stored expiry counts as expired. -/
theorem c2_wrong_code_after_expiry_is_invalid_code :
    ((verifyOTP c2Store 600000 "secret" true
        (some "+15550001111") (some "999999")).fst
      = .error .invalidCode ∧
     (Except.error .invalidCode : Except ApiError VerifyPayload)
      ≠ .error .expired) ∧
    (verifyOTP c2Store 0 "secret" true
        (some "+15550001111") (some "123456")).fst
      = .ok { token := generateToken 0 "secret" (uidStr 0),
              userId := uidStr 0, phoneNumber := "+15550001111",
              isVerified := true } := by
  refine ⟨⟨rfl, ?_⟩, rfl⟩
  intro h
  injection h with h2
  exact ApiError.noConfusion h2

/-- C2 (amended): with a stored code and stored expiry present, a verify
call strictly after the expiry with the matching code fails with Expired; a
non-matching code fails with InvalidCode regardless of expiry (the match
check precedes the expiry check); and a matching code at or before the
stored expiry instant succeeds. -/
theorem c2_amended_expiry (s : Store) (now : Int) (secret : String)
    (seedOk : Bool) (p c : String) (hp : p.isEmpty = false)
    (hc : c.isEmpty = false) (u : UserRec)
    (hu : s.users.find? (fun v => v.phoneNumber == p) = some u)
    (stored : String) (hotp : u.otp = some stored)
    (t : Int) (hex : u.otpExpires = some t) :
    (t < now → stored = c →
      (verifyOTP s now secret seedOk (some p) (some c)).fst
        = .error .expired) ∧
    (stored ≠ c →
      (verifyOTP s now secret seedOk (some p) (some c)).fst
        = .error .invalidCode) ∧
    (¬ t < now → stored = c →
      ∃ pay, (verifyOTP s now secret seedOk (some p) (some c)).fst
        = .ok pay) := by
  refine ⟨?_, ?_, ?_⟩
  · intro ht hsc
    subst hsc
    simp [verifyOTP, hp, hc, hu, hotp, hex, ht]
  · intro hne
    simp [verifyOTP, hp, hc, hu, hotp, hne]
  · intro ht hsc
    subst hsc
    refine ⟨{ token := generateToken now secret (uidStr u.id),
              userId := uidStr u.id, phoneNumber := u.phoneNumber,
              isVerified := true }, ?_⟩
    simp [verifyOTP, hp, hc, hu, hotp, hex, ht]

/-- C2 witness: the amended statement instantiated at the stored user
`c2User` with code "123456" expiring at time 0, clock 600000. -/
theorem c2_amended_expiry_witness :
    ("+15550001111" : String).isEmpty = false ∧
    ("123456" : String).isEmpty = false ∧
    c2Store.users.find? (fun v => v.phoneNumber == "+15550001111")
      = some c2User ∧
    c2User.otp = some "123456" ∧
    c2User.otpExpires = some 0 ∧
    (((0 : Int) < 600000 → "123456" = "123456" →
      (verifyOTP c2Store 600000 "secret" true
          (some "+15550001111") (some "123456")).fst = .error .expired) ∧
     (("123456" : String) ≠ "123456" →
      (verifyOTP c2Store 600000 "secret" true
          (some "+15550001111") (some "123456")).fst
        = .error .invalidCode) ∧
     (¬ (0 : Int) < 600000 → "123456" = "123456" →
      ∃ pay, (verifyOTP c2Store 600000 "secret" true
          (some "+15550001111") (some "123456")).fst = .ok pay)) :=
  ⟨rfl, rfl, rfl, rfl, rfl,
    c2_amended_expiry c2Store 600000 "secret" true "+15550001111" "123456"
      rfl rfl c2User rfl "123456" rfl 0 rfl⟩

/-- C10: an authenticated updateCategory request in which the name or the
color field is absent fails with InvalidInput and leaves the store — in
particular the addressed category — unchanged, so partial category updates
are impossible. -/
theorem c10_update_category_requires_name_and_color (s : Store) (now : Int)
    (uid : String) (i : Nat) (name color icon : Option String)
    (h : name = none ∨ color = none) :
    updateCategory s now (some uid) i name color icon
      = (.error .invalidInput, s) := by
  rcases h with h | h
  · subst h
    cases color <;> rfl
  · subst h
    cases name <;> rfl

/-- C10 witness: updating category 1 with a color but no name fails with
InvalidInput and leaves the empty store unchanged. -/
theorem c10_update_category_requires_name_and_color_witness :
    ((none : Option String) = none ∨ (some "#FFF" : Option String) = none) ∧
    updateCategory ({} : Store) 0 (some "7") 1 none (some "#FFF") none
      = (.error .invalidInput, ({} : Store)) :=
  ⟨Or.inl rfl,
    c10_update_category_requires_name_and_color ({} : Store) 0 "7" 1 none
      (some "#FFF") none (Or.inl rfl)⟩

/-- C1: every read, update, or delete of a category or an expense scopes its
lookup by both record id and requesting identity, so a user A operating on a
record whose id belongs exclusively to a different user B gets NotFound —
indistinguishable from a nonexistent record — and the store is unchanged.
(For updateCategory the request must carry the mandatory name and color;
those checks precede the lookup and fail with InvalidInput instead.) -/
theorem c1_owner_scoping (s : Store) (uidA uidB : String) (i : Nat)
    (hAB : uidA ≠ uidB)
    (hcat : ∀ c ∈ s.categories, c.id = i → c.userId = uidB)
    (hexp : ∀ e ∈ s.expenses, e.id = i → e.userId = uidB)
    (now : Int) (nmv cov : String) (ic : Option String)
    (hnmv : nmv.isEmpty = false) (hcov : cov.isEmpty = false)
    (amt : Option (Option ℚ)) (desc : Option String) (cid : Option Nat)
    (dt : Option Int) (rc : Option String) :
    getCategoryById s (some uidA) i = .error .notFound ∧
    updateCategory s now (some uidA) i (some nmv) (some cov) ic
      = (.error .notFound, s) ∧
    deleteCategory s (some uidA) i = (.error .notFound, s) ∧
    getExpenseById s (some uidA) i = .error .notFound ∧
    updateExpense s now (some uidA) i amt desc cid dt rc
      = (.error .notFound, s) ∧
    deleteExpense s (some uidA) i = (.error .notFound, s) := by
  have hfc : s.categories.find? (fun c => c.id == i && c.userId == uidA)
      = none := by
    rw [List.find?_eq_none]
    intro c hcm hpred
    simp only [Bool.and_eq_true, beq_iff_eq] at hpred
    apply hAB
    rw [← hpred.2]
    exact hcat c hcm hpred.1
  have hfe : s.expenses.find? (fun e => e.id == i && e.userId == uidA)
      = none := by
    rw [List.find?_eq_none]
    intro e hem hpred
    simp only [Bool.and_eq_true, beq_iff_eq] at hpred
    apply hAB
    rw [← hpred.2]
    exact hexp e hem hpred.1
  refine ⟨?_, ?_, ?_, ?_, ?_, ?_⟩
  · simp [getCategoryById, hfc]
  · simp [updateCategory, hnmv, hcov, hfc]
  · simp [deleteCategory, hfc]
  · simp [getExpenseById, hfe]
  · simp [updateExpense, hfe]
  · simp [deleteExpense, hfe]

/-- A category and an expense owned by user B, for the C1 witness. -/
def c1Store : Store :=
  { users := [],
    categories := [{ id := 1, name := "Food", color := "#10B981",
                     icon := none, userId := "B", createdAt := 0,
                     updatedAt := 0 }],
    expenses := [{ id := 2, amount := 50, description := "lunch",
                   categoryId := 1, date := 0, receiptUrl := none,
                   userId := "B", createdAt := 0, updatedAt := 0 }],
    nextId := 3 }

/-- C1 witness: user A probing B-owned category 1 (and expense id 1, of
which there is none — every record with id 1 is B's category). -/
theorem c1_owner_scoping_witness :
    ("A" : String) ≠ "B" ∧
    (∀ c ∈ c1Store.categories, c.id = 1 → c.userId = "B") ∧
    (∀ e ∈ c1Store.expenses, e.id = 1 → e.userId = "B") ∧
    ("Grocery" : String).isEmpty = false ∧
    ("#FFF" : String).isEmpty = false ∧
    (getCategoryById c1Store (some "A") 1 = .error .notFound ∧
     updateCategory c1Store 9 (some "A") 1 (some "Grocery") (some "#FFF") none
       = (.error .notFound, c1Store) ∧
     deleteCategory c1Store (some "A") 1 = (.error .notFound, c1Store) ∧
     getExpenseById c1Store (some "A") 1 = .error .notFound ∧
     updateExpense c1Store 9 (some "A") 1 none none none none none
       = (.error .notFound, c1Store) ∧
     deleteExpense c1Store (some "A") 1 = (.error .notFound, c1Store)) :=
  ⟨by decide, by decide, by decide, rfl, rfl,
    c1_owner_scoping c1Store "A" "B" 1 (by decide) (by decide) (by decide)
      9 "Grocery" "#FFF" none rfl rfl none none none none none⟩

/-- C4: a token whose signature verifies against the server secret and whose
embedded expiry has not passed is still rejected with Unauthorized when the
referenced user record is absent from the current store or not verified;
only when the user exists and is verified does the request proceed carrying
that user's identity.  The lookup runs against the store passed to each
`authenticate` call, i.e. on every authenticated request. -/
theorem c4_authenticate_rechecks_user (s : Store) (secret : String)
    (now : Int) (tok : JwtToken) (hsig : tok.sig = secret)
    (hexp : now < tok.exp) :
    (s.users.find? (fun u => uidStr u.id == tok.userId) = none →
      authenticate s (some secret) now (some tok) = .error .unauthorized) ∧
    (∀ u, s.users.find? (fun v => uidStr v.id == tok.userId) = some u →
      (u.isVerified = false →
        authenticate s (some secret) now (some tok) = .error .unauthorized) ∧
      (u.isVerified = true →
        authenticate s (some secret) now (some tok)
          = .ok { userId := uidStr u.id, phoneNumber := u.phoneNumber })) := by
  have hv : jwtVerify tok secret now = .ok tok.userId := by
    unfold jwtVerify
    rw [if_neg (by simp [hsig]), if_neg (by omega)]
  constructor
  · intro hn
    simp [authenticate, hv, hn]
  · intro u hu
    constructor <;> intro hver <;> simp [authenticate, hv, hu, hver]

/-- A deleted-user store (empty) and a verified-user store for C4's witness. -/
def c4User : UserRec :=
  { id := 5, phoneNumber := "+15550001111", otp := none, otpExpires := none,
    isVerified := true, createdAt := 0 }

/-- A valid, unexpired token for user 5 signed with secret "s3cret". -/
def c4Token : JwtToken := { userId := "5", exp := 1000, sig := "s3cret" }

/-- C4 witness: the same valid token is rejected against the empty store
(user deleted) and accepted against the store holding verified user 5. -/
theorem c4_authenticate_rechecks_user_witness :
    c4Token.sig = "s3cret" ∧ (0 : Int) < c4Token.exp ∧
    (({} : Store).users.find? (fun u => uidStr u.id == c4Token.userId) = none →
      authenticate ({} : Store) (some "s3cret") 0 (some c4Token)
        = .error .unauthorized) ∧
    (∀ u, ({} : Store).users.find? (fun v => uidStr v.id == c4Token.userId)
        = some u →
      (u.isVerified = false →
        authenticate ({} : Store) (some "s3cret") 0 (some c4Token)
          = .error .unauthorized) ∧
      (u.isVerified = true →
        authenticate ({} : Store) (some "s3cret") 0 (some c4Token)
          = .ok { userId := uidStr u.id, phoneNumber := u.phoneNumber })) :=
  ⟨rfl, by decide,
    (c4_authenticate_rechecks_user ({} : Store) "s3cret" 0 c4Token rfl
      (by decide)).1,
    (c4_authenticate_rechecks_user ({} : Store) "s3cret" 0 c4Token rfl
      (by decide)).2⟩

/-- The six starter documents written out, for membership reasoning. -/
lemma seededCategories_eq (uid : String) (sid : Nat) (now : Int) :
    seededCategories uid sid now =
      [{ id := sid + 0, name := "Food", color := "#10B981",
         icon := some "🍽️", userId := uid, createdAt := now,
         updatedAt := now },
       { id := sid + 1, name := "Travel", color := "#3B82F6",
         icon := some "✈️", userId := uid, createdAt := now,
         updatedAt := now },
       { id := sid + 2, name := "Stationery", color := "#F59E0B",
         icon := some "📝", userId := uid, createdAt := now,
         updatedAt := now },
       { id := sid + 3, name := "Fast Food", color := "#EF4444",
         icon := some "🍕", userId := uid, createdAt := now,
         updatedAt := now },
       { id := sid + 4, name := "Shopping", color := "#8B5CF6",
         icon := some "🛍️", userId := uid, createdAt := now,
         updatedAt := now },
       { id := sid + 5, name := "Entertainment", color := "#EC4899",
         icon := some "🎬", userId := uid, createdAt := now,
         updatedAt := now }] := rfl

/-- C8: on a successful verification the response is a success payload
carrying a freshly minted token in every case; the store's categories are
unchanged when the user was already verified (later logins) and when the
seeding insert fails (the error is swallowed); exactly when the user's
verified flag was false before the call and the insert succeeds, the fixed
6-element starter set owned by that user is appended. -/
theorem c8_seed_on_first_verification (s : Store) (now : Int)
    (secret : String) (seedOk : Bool) (p c : String)
    (hp : p.isEmpty = false) (hc : c.isEmpty = false) (u : UserRec)
    (hu : s.users.find? (fun v => v.phoneNumber == p) = some u)
    (hotp : u.otp = some c) (t : Int) (hex : u.otpExpires = some t)
    (ht : ¬ t < now) :
    (verifyOTP s now secret seedOk (some p) (some c)).fst
      = .ok { token := generateToken now secret (uidStr u.id),
              userId := uidStr u.id, phoneNumber := u.phoneNumber,
              isVerified := true } ∧
    (u.isVerified = true →
      ((verifyOTP s now secret seedOk (some p) (some c)).snd).categories
        = s.categories) ∧
    (u.isVerified = false → seedOk = false →
      ((verifyOTP s now secret seedOk (some p) (some c)).snd).categories
        = s.categories) ∧
    (u.isVerified = false → seedOk = true →
      ((verifyOTP s now secret seedOk (some p) (some c)).snd).categories
        = s.categories ++ seededCategories (uidStr u.id) s.nextId now) ∧
    (seededCategories (uidStr u.id) s.nextId now).length = 6 ∧
    (∀ cat ∈ seededCategories (uidStr u.id) s.nextId now,
      cat.userId = uidStr u.id) := by
  refine ⟨?_, ?_, ?_, ?_, rfl, ?_⟩
  · simp [verifyOTP, hp, hc, hu, hotp, hex, ht]
  · intro hver
    simp [verifyOTP, hp, hc, hu, hotp, hex, ht, hver]
  · intro hver hseed
    subst hseed
    simp [verifyOTP, hp, hc, hu, hotp, hex, ht, hver,
      createDefaultCategories]
  · intro hver hseed
    subst hseed
    simp [verifyOTP, hp, hc, hu, hotp, hex, ht, hver,
      createDefaultCategories]
  · intro cat hcat
    rw [seededCategories_eq] at hcat
    simp only [List.mem_cons, List.not_mem_nil, or_false] at hcat
    rcases hcat with rfl | rfl | rfl | rfl | rfl | rfl <;> rfl

/-- A store holding one unverified user with a live OTP, for C8's witness. -/
def c8Store : Store :=
  { users := [{ id := 4, phoneNumber := "+15550001111",
                otp := some "482913", otpExpires := some 600000,
                isVerified := false, createdAt := 0 }],
    categories := [], expenses := [], nextId := 5 }

/-- C8 witness: first successful verification of user 4 at time 300000. -/
theorem c8_seed_on_first_verification_witness :
    ("+15550001111" : String).isEmpty = false ∧
    ("482913" : String).isEmpty = false ∧
    c8Store.users.find? (fun v => v.phoneNumber == "+15550001111")
      = some { id := 4, phoneNumber := "+15550001111",
               otp := some "482913", otpExpires := some 600000,
               isVerified := false, createdAt := 0 } ∧
    ¬ (600000 : Int) < 300000 ∧
    ((verifyOTP c8Store 300000 "s3cret" true
        (some "+15550001111") (some "482913")).fst
      = .ok { token := generateToken 300000 "s3cret" (uidStr 4),
              userId := uidStr 4, phoneNumber := "+15550001111",
              isVerified := true } ∧
     (false = true →
       ((verifyOTP c8Store 300000 "s3cret" true
           (some "+15550001111") (some "482913")).snd).categories
         = c8Store.categories) ∧
     (false = false → true = false →
       ((verifyOTP c8Store 300000 "s3cret" true
           (some "+15550001111") (some "482913")).snd).categories
         = c8Store.categories) ∧
     (false = false → true = true →
       ((verifyOTP c8Store 300000 "s3cret" true
           (some "+15550001111") (some "482913")).snd).categories
         = c8Store.categories ++ seededCategories (uidStr 4) c8Store.nextId
             300000) ∧
     (seededCategories (uidStr 4) c8Store.nextId 300000).length = 6 ∧
     (∀ cat ∈ seededCategories (uidStr 4) c8Store.nextId 300000,
       cat.userId = uidStr 4)) :=
  ⟨rfl, rfl, rfl, by decide,
    c8_seed_on_first_verification c8Store 300000 "s3cret" true
      "+15550001111" "482913" rfl rfl _ rfl rfl 600000 rfl (by decide)⟩

/-- An expense of user "7" dated January 15, 2025, for the C3 failing
input. -/
def c3Expense : Expense :=
  { id := 2, amount := 50, description := "lunch", categoryId := 1,
    date := jsMakeTime 2025 0 15 12 0 0 0, receiptUrl := none,
    userId := "7", createdAt := 0, updatedAt := 0 }

/-- The store for the C3 failing input. -/
def c3Store : Store :=
  { users := [], categories := [], expenses := [c3Expense], nextId := 3 }

/-- January 20, 2025, noon — the clock for the C3 failing input. -/
def c3Now : JSDate :=
  { year := 2025, month := 0, day := 20, hour := 12, minute := 0,
    second := 0, ms := 0 }

/-- C3, code bug: the period-statistics aggregation `$match`es on
`userId: new mongoose.Types.ObjectId(userId)` although the Expense schema
stores `userId` as a string, and aggregation pipelines bypass schema
casting; an ObjectId never equals a string in BSON, so the stats totals are
0/0 even though the user's expenses inside the window sum to 50 with count 1
(the sibling `getExpenseSummary` pipeline passes the raw string — source
comments even note "Use string instead of ObjectId" there). -/
theorem c3_stats_zero_by_objectid_type_mismatch :
    (∃ pay, getExpenseStats c3Store (some "7") "month" c3Now = .ok pay ∧
      pay.totalAmount = 0 ∧ pay.totalCount = 0) ∧
    c3Store.expenses.filter (fun e => e.userId == "7"
        && decide (jsMakeTime 2025 0 1 0 0 0 0 ≤ e.date)
        && decide (e.date ≤ c3Now.getTime)) = [c3Expense] ∧
    sumAmounts [c3Expense] = 50 := by
  refine ⟨⟨_, rfl, rfl, rfl⟩, by decide, ?_⟩
  norm_num [sumAmounts, c3Expense]

/-- Transitivity of the (date desc, createdAt desc) comparator. -/
lemma recentLe_trans (a b c : Expense) (h1 : recentLe a b = true)
    (h2 : recentLe b c = true) : recentLe a c = true := by
  simp only [recentLe, Bool.or_eq_true, decide_eq_true_eq,
    Bool.and_eq_true, beq_iff_eq] at h1 h2 ⊢
  omega

/-- Totality of the (date desc, createdAt desc) comparator. -/
lemma recentLe_total (a b : Expense) :
    (recentLe a b || recentLe b a) = true := by
  simp only [recentLe, Bool.or_eq_true, decide_eq_true_eq,
    Bool.and_eq_true, beq_iff_eq]
  omega

/-- C7: the summary always succeeds, and its recent-activity list holds at
most five entries, each belonging to the requesting user and each carrying a
category reference that resolves in the store (expenses with dangling
references are dropped, not fatal); the list is ordered by date descending
with creation time descending as tie-break. -/
theorem c7_recent_activity (s : Store) (uid : String) (now : JSDate) :
    ∃ sm, getExpenseSummary s (some uid) now = .ok sm ∧
      sm.recentTransactions.length ≤ 5 ∧
      sm.recentTransactions.Pairwise (fun a b =>
        b.date < a.date ∨ (b.date = a.date ∧ b.createdAt ≤ a.createdAt)) ∧
      ∀ it ∈ sm.recentTransactions, it.userId = uid ∧
        ∃ c ∈ s.categories, c.id = it.categoryId := by
  refine ⟨_, rfl, ?_, ?_, ?_⟩
  · exact le_trans (List.length_filterMap_le _ _)
      (List.length_take_le 5 _)
  · have hsorted := List.sorted_mergeSort recentLe_trans recentLe_total
      (s.expenses.filter (fun e => e.userId == uid))
    have htake := List.Pairwise.sublist (List.take_sublist 5 _) hsorted
    refine List.Pairwise.filterMap _ ?_ htake
    intro a b hab x hx y hy
    simp only [Option.mem_def, Option.map_eq_some'] at hx hy
    obtain ⟨ca, -, hxa⟩ := hx
    obtain ⟨cb, -, hyb⟩ := hy
    subst hxa hyb
    simp only [recentLe, Bool.or_eq_true, decide_eq_true_eq,
      Bool.and_eq_true, beq_iff_eq] at hab
    rcases hab with h | ⟨h1, h2⟩
    · exact Or.inl h
    · exact Or.inr ⟨h1.symm ▸ rfl, h2⟩
  · intro it hit
    obtain ⟨e, he, hfe⟩ := List.mem_filterMap.mp hit
    have he2 : e ∈ (s.expenses.filter
        (fun e => e.userId == uid)).mergeSort recentLe :=
      (List.take_sublist 5 _).subset he
    have he3 : e ∈ s.expenses.filter (fun e => e.userId == uid) :=
      (List.mergeSort_perm _ _).mem_iff.mp he2
    have he4 := List.mem_filter.mp he3
    simp only [Option.map_eq_some'] at hfe
    obtain ⟨c, hc, hit2⟩ := hfe
    subst hit2
    refine ⟨by simpa using he4.2, c, List.mem_of_find?_eq_some hc, rfl⟩

/-- A list of positive-amount expenses with zero total is empty. -/
lemma filter_nil_of_sum_zero (l : List Expense)
    (hpos : ∀ e ∈ l, 0 < e.amount) (h : sumAmounts l = 0) : l = [] := by
  by_contra hne
  have hgt : 0 < sumAmounts l := by
    apply List.sum_pos
    · intro x hx
      obtain ⟨e, he, rfl⟩ := List.mem_map.mp hx
      exact hpos e he
    · simpa [List.map_eq_nil_iff] using hne
  exact (ne_of_gt hgt) h

/-- Value of `eraseDups` on the empty list, stated for `simp`. -/
lemma eraseDups_nil {α : Type} [BEq α] : ([] : List α).eraseDups = [] := rfl

/-- The breakdown is empty when no expense matches the window filter. -/
lemma breakdownFor_nil (s : Store) (uid : String) (startT endT : Int)
    (h : s.expenses.filter (fun e =>
      bsonEq (.str e.userId) (.str uid) && decide (startT ≤ e.date)
        && decide (e.date ≤ endT)) = []) :
    breakdownFor s uid startT endT = [] := by
  simp [breakdownFor, h, eraseDups_nil, List.filterMap_nil,
    List.mergeSort_nil]

/-- C6: the summary always succeeds; every breakdown row's percentage is
the JavaScript rounding of 100 times its window total over the overall
window total when that total is positive and 0 otherwise (division by zero
cannot occur); with positive stored amounts a zero window total means an
empty breakdown; and a user with no stored expenses gets all-time total 0,
window total 0, empty breakdown and empty recent list. -/
theorem c6_breakdown_percentages (s : Store) (uid : String) (now : JSDate)
    (hpos : ∀ e ∈ s.expenses, 0 < e.amount) :
    ∃ sm, getExpenseSummary s (some uid) now = .ok sm ∧
      (∀ it ∈ sm.categoryBreakdown, it.percentage =
        if 0 < sm.monthlyExpenses
        then jsRound (100 * it.totalAmount / sm.monthlyExpenses) else 0) ∧
      (sm.monthlyExpenses = 0 → sm.categoryBreakdown = []) ∧
      ((∀ e ∈ s.expenses, e.userId ≠ uid) →
        sm.totalExpenses = 0 ∧ sm.monthlyExpenses = 0 ∧
        sm.categoryBreakdown = [] ∧ sm.recentTransactions = []) := by
  refine ⟨_, rfl, ?_, ?_, ?_⟩
  · intro it hit
    dsimp only at hit ⊢
    obtain ⟨it0, hit0, rfl⟩ := List.mem_map.mp hit
    dsimp only
    split_ifs with h
    · congr 1
      ring
    · rfl
  · intro hM
    dsimp only at hM ⊢
    have hnil : s.expenses.filter (fun e =>
        bsonEq (.str e.userId) (.str uid)
          && decide (jsMakeTime now.year now.month 1 0 0 0 0 ≤ e.date)
          && decide (e.date
              ≤ jsMakeTime now.year (now.month + 1) 0 23 59 59 999)) = [] := by
      apply filter_nil_of_sum_zero _ _ hM
      intro e he
      exact hpos e (List.mem_filter.mp he).1
    rw [breakdownFor_nil s uid _ _ hnil]
    rfl
  · intro hno
    have h1 : s.expenses.filter
        (fun e => bsonEq (.str e.userId) (.str uid)) = [] := by
      rw [List.filter_eq_nil_iff]
      intro e he
      simp [bsonEq, hno e he]
    have h2 : s.expenses.filter (fun e =>
        bsonEq (.str e.userId) (.str uid)
          && decide (jsMakeTime now.year now.month 1 0 0 0 0 ≤ e.date)
          && decide (e.date
              ≤ jsMakeTime now.year (now.month + 1) 0 23 59 59 999)) = [] := by
      rw [List.filter_eq_nil_iff]
      intro e he
      simp [bsonEq, hno e he]
    have h3 : s.expenses.filter (fun e => e.userId == uid) = [] := by
      rw [List.filter_eq_nil_iff]
      intro e he
      simpa using hno e he
    refine ⟨?_, ?_, ?_, ?_⟩
    · dsimp only
      rw [h1]
      rfl
    · dsimp only
      rw [h2]
      rfl
    · dsimp only
      rw [breakdownFor_nil s uid _ _ h2]
      rfl
    · dsimp only
      rw [h3, List.mergeSort_nil]
      rfl

/-- The clock for the C6 witness: January 20, 2025, noon. -/
def c6Now : JSDate :=
  { year := 2025, month := 0, day := 20, hour := 12, minute := 0,
    second := 0, ms := 0 }

/-- C6 witness: the theorem instantiated at the empty store (a user with
zero expenses), user "7", January 2025. -/
theorem c6_breakdown_percentages_witness :
    (∀ e ∈ ({} : Store).expenses, 0 < e.amount) ∧
    (∃ sm, getExpenseSummary ({} : Store) (some "7") c6Now = .ok sm ∧
      (∀ it ∈ sm.categoryBreakdown, it.percentage =
        if 0 < sm.monthlyExpenses
        then jsRound (100 * it.totalAmount / sm.monthlyExpenses) else 0) ∧
      (sm.monthlyExpenses = 0 → sm.categoryBreakdown = []) ∧
      ((∀ e ∈ ({} : Store).expenses, e.userId ≠ "7") →
        sm.totalExpenses = 0 ∧ sm.monthlyExpenses = 0 ∧
        sm.categoryBreakdown = [] ∧ sm.recentTransactions = [])) :=
  ⟨by simp, c6_breakdown_percentages ({} : Store) "7" c6Now (by simp)⟩

/-- Appending a fresh match to a list with no match makes it the found
element. -/
lemma find?_append_singleton {α : Type} (q : α → Bool) (l : List α) (a : α)
    (hl : l.find? q = none) (ha : q a = true) :
    (l ++ [a]).find? q = some a := by
  rw [List.find?_append, hl, Option.none_or]
  exact List.find?_cons_of_pos _ ha

/-- Mapping a function over a list keeps the found element in place when
the function turns no earlier non-match into a match other than the image
of the found element. -/
lemma find?_map_of_find? {α : Type} (q : α → Bool) (g : α → α) :
    ∀ (l : List α) (u : α), l.find? q = some u →
    (∀ v ∈ l, q v = false → q (g v) = true → g v = g u) →
    q (g u) = true →
    (l.map g).find? q = some (g u) := by
  intro l
  induction l with
  | nil => intro u hu _ _; simp at hu
  | cons a l ih =>
    intro u hu hv hq
    by_cases ha : q a = true
    · rw [List.find?_cons_of_pos _ ha] at hu
      injection hu with hu2
      subst hu2
      rw [List.map_cons]
      exact List.find?_cons_of_pos _ hq
    · rw [List.find?_cons_of_neg _ (by simpa using ha)] at hu
      rw [List.map_cons]
      by_cases hga : q (g a) = true
      · have := hv a (by simp) (by simpa using ha) hga
        rw [List.find?_cons_of_pos _ hga, this]
      · rw [List.find?_cons_of_neg _ (by simpa using hga)]
        exact ih u hu (fun v hvm => hv v (by simp [hvm])) hq

/-- Seeding only touches the categories collection and the id counter. -/
lemma createDefaultCategories_users (ok : Bool) (uid : String) (now : Int)
    (s : Store) : (createDefaultCategories ok uid now s).users = s.users := by
  unfold createDefaultCategories
  split <;> rfl

/-- C5: verification is single-use.  For a valid phone, issuing a code at
`t1` and verifying it at `t2` within the 10-minute window succeeds, clears
the stored code and expiry and sets the verified flag; replaying the very
same code afterwards (at any time `t3`) fails with InvalidCode, because the
cleared stored code no longer equals any submitted string. -/
theorem c5_verification_single_use (s : Store) (t1 t2 t3 : Int) (r : ℚ)
    (secret : String) (seedOk1 seedOk2 : Bool) (p : String)
    (hp : isValidPhone p = true) (h12 : t2 ≤ t1 + 600000) :
    (∃ pay, (verifyOTP (sendOTP s t1 r (some p)).snd t2 secret seedOk1
        (some p) (some (generateOTP r))).fst = .ok pay) ∧
    (∃ u, ((verifyOTP (sendOTP s t1 r (some p)).snd t2 secret seedOk1
        (some p) (some (generateOTP r))).snd).users.find?
          (fun v => v.phoneNumber == p) = some u ∧
      u.otp = none ∧ u.otpExpires = none ∧ u.isVerified = true) ∧
    (verifyOTP (verifyOTP (sendOTP s t1 r (some p)).snd t2 secret seedOk1
        (some p) (some (generateOTP r))).snd t3 secret seedOk2
        (some p) (some (generateOTP r))).fst = .error .invalidCode := by
  have hpe : p.isEmpty = false := isValidPhone_ne_empty p hp
  have hce : (generateOTP r).isEmpty = false := generateOTP_ne_empty r
  have hnlt : ¬ (t1 + 600000 < t2) := by omega
  -- the store after sendOTP holds a first-found user for p carrying the
  -- fresh code and expiry
  have step1 : ∃ u1, ((sendOTP s t1 r (some p)).snd).users.find?
      (fun v => v.phoneNumber == p) = some u1 ∧
      u1.otp = some (generateOTP r) ∧
      u1.otpExpires = some (t1 + 600000) := by
    cases hf : s.users.find? (fun u => u.phoneNumber == p) with
    | none =>
      refine ⟨{ id := s.nextId, phoneNumber := p,
                otp := some (generateOTP r),
                otpExpires := some (t1 + 600000), isVerified := false,
                createdAt := t1 }, ?_, rfl, rfl⟩
      have hs1 : (sendOTP s t1 r (some p)).snd.users
          = s.users ++ [{ id := s.nextId, phoneNumber := p,
                          otp := some (generateOTP r),
                          otpExpires := some (t1 + 600000),
                          isVerified := false, createdAt := t1 }] := by
        simp [sendOTP, hpe, hp, hf]
      rw [hs1]
      exact find?_append_singleton _ _ _ hf (by simp)
    | some u0 =>
      have hq : (u0.phoneNumber == p) = true := by
        have h2 := List.find?_some hf
        simpa using h2
      refine ⟨{ u0 with otp := some (generateOTP r),
                        otpExpires := some (t1 + 600000) }, ?_, rfl, rfl⟩
      have hs1 : (sendOTP s t1 r (some p)).snd.users
          = s.users.map (fun v =>
              if v.id == u0.id then
                { u0 with otp := some (generateOTP r),
                          otpExpires := some (t1 + 600000) }
              else v) := by
        simp [sendOTP, hpe, hp, hf]
      rw [hs1]
      have := find?_map_of_find? (fun v => v.phoneNumber == p)
        (fun v => if v.id == u0.id then
          { u0 with otp := some (generateOTP r),
                    otpExpires := some (t1 + 600000) }
          else v) s.users u0 hf ?_ ?_
      · simpa using this
      · intro v _ hqv hqg
        simp only at hqv hqg ⊢
        by_cases hid : v.id = u0.id
        · simp [hid]
        · rw [if_neg (by simp [hid])] at hqg
          exact absurd hqg (by simp [hqv])
      · simpa using hq
  obtain ⟨u1, hfind1, hotp1, hexp1⟩ := step1
  have hphone1 : (u1.phoneNumber == p) = true := by
    have h2 := List.find?_some hfind1
    simpa using h2
  -- the first verification succeeds
  have hfst1 : (verifyOTP (sendOTP s t1 r (some p)).snd t2 secret seedOk1
      (some p) (some (generateOTP r))).fst
        = .ok { token := generateToken t2 secret (uidStr u1.id),
                userId := uidStr u1.id, phoneNumber := u1.phoneNumber,
                isVerified := true } := by
    simp [verifyOTP, hpe, hce, hfind1, hotp1, hexp1, hnlt]
  -- ... and rewrites the found user to the cleared, verified one
  have husers : ((verifyOTP (sendOTP s t1 r (some p)).snd t2 secret seedOk1
      (some p) (some (generateOTP r))).snd).users
        = ((sendOTP s t1 r (some p)).snd).users.map (fun v =>
            if v.id == u1.id then
              { u1 with isVerified := true, otp := none, otpExpires := none }
            else v) := by
    simp [verifyOTP, hpe, hce, hfind1, hotp1, hexp1, hnlt,
      apply_ite Store.users, createDefaultCategories_users, ite_self]
  have hfind2 : ((verifyOTP (sendOTP s t1 r (some p)).snd t2 secret seedOk1
      (some p) (some (generateOTP r))).snd).users.find?
        (fun v => v.phoneNumber == p)
        = some { u1 with isVerified := true, otp := none,
                         otpExpires := none } := by
    rw [husers]
    have := find?_map_of_find? (fun v => v.phoneNumber == p)
      (fun v => if v.id == u1.id then
        { u1 with isVerified := true, otp := none, otpExpires := none }
        else v) ((sendOTP s t1 r (some p)).snd).users u1 hfind1 ?_ ?_
    · simpa using this
    · intro v _ hqv hqg
      simp only at hqv hqg ⊢
      by_cases hid : v.id = u1.id
      · simp [hid]
      · rw [if_neg (by simp [hid])] at hqg
        exact absurd hqg (by simp [hqv])
    · simpa using hphone1
  refine ⟨⟨_, hfst1⟩, ⟨_, hfind2, rfl, rfl, rfl⟩, ?_⟩
  have hlast : ∀ s2 : Store, s2.users.find? (fun v => v.phoneNumber == p)
      = some { u1 with isVerified := true, otp := none,
                       otpExpires := none } →
      (verifyOTP s2 t3 secret seedOk2 (some p)
        (some (generateOTP r))).fst = .error .invalidCode := by
    intro s2 hf2
    simp [verifyOTP, hpe, hce, hf2]
  exact hlast _ hfind2

/-- C5 witness: issue at time 0 for +15550001111 on the empty store with
draw 0, verify at 300000 (inside the window), replay at 900000. -/
theorem c5_verification_single_use_witness :
    isValidPhone "+15550001111" = true ∧
    (300000 : Int) ≤ 0 + 600000 ∧
    ((∃ pay, (verifyOTP (sendOTP ({} : Store) 0 0 (some "+15550001111")).snd
        300000 "s3cret" true (some "+15550001111")
        (some (generateOTP 0))).fst = .ok pay) ∧
     (∃ u, ((verifyOTP (sendOTP ({} : Store) 0 0 (some "+15550001111")).snd
        300000 "s3cret" true (some "+15550001111")
        (some (generateOTP 0))).snd).users.find?
          (fun v => v.phoneNumber == "+15550001111") = some u ∧
       u.otp = none ∧ u.otpExpires = none ∧ u.isVerified = true) ∧
     (verifyOTP (verifyOTP
        (sendOTP ({} : Store) 0 0 (some "+15550001111")).snd
        300000 "s3cret" true (some "+15550001111")
        (some (generateOTP 0))).snd 900000 "s3cret" true
        (some "+15550001111") (some (generateOTP 0))).fst
       = .error .invalidCode) :=
  ⟨by decide, by decide,
    c5_verification_single_use ({} : Store) 0 300000 900000 0 "s3cret"
      true true "+15550001111" (by decide) (by decide)⟩

end PocketLedger
